import Mathlib

/-!
Shallow embedding of `enhanced_cordic.c` (hamsternz/enhanced_CORDIC).

The program has two parts:
* `setup()` builds three tables (`angles`, `shifts`, `initial`) using
  double-precision libm calls;
* `cordic_sine_cosine()` is a pure 64-bit integer routine that, given a phase
  and the tables, returns scaled sine and cosine values.

The rotation engine is embedded here over `Int`.  C's arithmetic right shift
`v >> s` of an `int64_t` is floor division, which is Lean's `Int` division `/`
(Euclidean division by the positive constant `2^s`); `v & (2^k - 1)` on a
two's-complement integer is `v % 2^k` with Lean's `%` (Euclidean remainder),
and `(v >> k) & 1` is `(v / 2^k) % 2`.  All intermediate values are far from
the int64 boundaries for the inputs considered, so plain `Int` arithmetic is
exact.  Tables are passed explicitly (the C code keeps them in globals that
`setup()` fills once and the engine only reads).

The concrete table contents produced by `setup()` under IEEE-754
double-precision arithmetic are reproduced below as integer literals
(`genAngles`, `genShifts`, `genInitial`); every entry of `initial` is more
than 1e-4 away from its truncation boundary, so the values do not depend on
sub-ulp differences between correctly-rounded libm implementations.
-/

namespace EnhancedCordic

/-- `#define INDEX_BITS (11)` -/
def INDEX_BITS : Nat := 11

/-- `#define CORDIC_BITS (19)` -/
def CORDIC_BITS : Nat := 19

/-- `#define INPUT_BITS (2+INDEX_BITS+CORDIC_BITS)` -/
def INPUT_BITS : Nat := 2 + INDEX_BITS + CORDIC_BITS

/-- `#define CORDIC_REPS (24)` -/
def CORDIC_REPS : Nat := 24

/-- `#define OUTPUT_SCALE ((int64_t)1<<31)` -/
def OUTPUT_SCALE : Int := 2 ^ 31

/-- `#define OUTPUT_EXTRA_BITS (4)` -/
def OUTPUT_EXTRA_BITS : Nat := 4

/-- `#define Z_EXTRA_BITS (2)` -/
def Z_EXTRA_BITS : Nat := 2

/-- `#define MAX_ERROR (3.0)`: the harness prints any phase whose output is 3
or more units away from the floating-point reference. -/
def MAX_ERROR : Int := 3

/-- `#define FULL_CIRCLE ((int64_t)1<<INPUT_BITS)` -/
def FULL_CIRCLE : Int := 2 ^ INPUT_BITS

/-- `#define TABLE_SIZE (1<<INDEX_BITS)` -/
def TABLE_SIZE : Nat := 2 ^ INDEX_BITS

/-- `#define TARGET (1<<(CORDIC_BITS+Z_EXTRA_BITS-1))` -/
def TARGET : Int := 2 ^ (CORDIC_BITS + Z_EXTRA_BITS - 1)

/-- The three tables `setup()` produces: `int32_t angles[CORDIC_REPS]`,
`int32_t shifts[CORDIC_REPS]`, `int64_t initial[TABLE_SIZE]`.  The shift
amounts are kept as `Nat` (they are the nonnegative values `INDEX_BITS + i`). -/
structure Tables where
  angles : List Int
  shifts : List Nat
  initial : List Int

/-- `quadrant_bit1 = (z >> (CORDIC_BITS+INDEX_BITS+1)) & 1` (line 146). -/
def quadrantBit1 (p : Int) : Int := (p / 2 ^ (CORDIC_BITS + INDEX_BITS + 1)) % 2

/-- `quadrant_bit0 = (z >> (CORDIC_BITS+INDEX_BITS)) & 1` (line 147). -/
def quadrantBit0 (p : Int) : Int := (p / 2 ^ (CORDIC_BITS + INDEX_BITS)) % 2

/-- `index = (z & INDEX_MASK) >> CORDIC_BITS` (line 148), for the
nonnegative phases considered. -/
def index (p : Int) : Int := (p / 2 ^ CORDIC_BITS) % 2 ^ INDEX_BITS

/-- `z = (z & CORDIC_MASK) << Z_EXTRA_BITS` (line 149): the residual bits of
the phase, widened by the guard bits. -/
def residual (p : Int) : Int := (p % 2 ^ CORDIC_BITS) * 2 ^ Z_EXTRA_BITS

/-- The quadrant number: the top two bits of the phase. -/
def quadrant (p : Int) : Int := (p / 2 ^ (CORDIC_BITS + INDEX_BITS)) % 4

/-- `flip_sin_sign = quadrant_bit1` (line 152). -/
def flipSin (p : Int) : Int := quadrantBit1 p

/-- `flip_cos_sign = quadrant_bit1 ^ quadrant_bit0` (line 153); for bits
represented as integers in `{0,1}`, xor is addition mod 2. -/
def flipCos (p : Int) : Int := (quadrantBit1 p + quadrantBit0 p) % 2

/-- Lines 155-158: fold the residual when `quadrant_bit0` is set, then
subtract the recentering offset `TARGET`.  This is the value of the variable
`z` as the iteration loop starts. -/
def startZ (p : Int) : Int :=
  (if quadrantBit0 p = 1 then 2 ^ (CORDIC_BITS + Z_EXTRA_BITS) - residual p
   else residual p) - TARGET

/-- Lines 162-168, value of `x`: the table is read at `index` when
`quadrant_bit0` is set and at the mirrored position otherwise. -/
def startX (t : Tables) (p : Int) : Int :=
  if quadrantBit0 p = 1 then t.initial.getD (index p).toNat 0
  else t.initial.getD (TABLE_SIZE - 1 - (index p).toNat) 0

/-- Lines 162-168, value of `y`: mirrored with respect to `startX`. -/
def startY (t : Tables) (p : Int) : Int :=
  if quadrantBit0 p = 1 then t.initial.getD (TABLE_SIZE - 1 - (index p).toNat) 0
  else t.initial.getD (index p).toNat 0

/-- One iteration of the loop at lines 175-183, acting on the state
`(x, y, z)`.  `sh` is `shifts[i]` and `a` is `angles[i]`. -/
def cordicStep (sh : Nat) (a : Int) (st : Int × Int × Int) : Int × Int × Int :=
  let tx := st.1 / 2 ^ sh
  let ty := st.2.1 / 2 ^ sh
  (st.1 - (if st.2.2 < 0 then -ty else ty),
   st.2.1 + (if st.2.2 < 0 then -tx else tx),
   (st.2.2 + (if st.2.2 < 0 then a else -a)) * 2)

/-- The first `n` iterations of the loop, in order `i = 0, 1, ...`. -/
def cordicIter (t : Tables) : Nat → Int × Int × Int → Int × Int × Int
  | 0, st => st
  | n + 1, st => cordicStep (t.shifts.getD n 0) (t.angles.getD n 0) (cordicIter t n st)

/-- The loop state after all `CORDIC_REPS` iterations, as a function of the
fields extracted from the phase (`b0` = `quadrant_bit0`, `idx` = `index`,
`z` = the recentered residual). -/
def loopEnd (t : Tables) (b0 idx z : Int) : Int × Int × Int :=
  cordicIter t CORDIC_REPS
    (if b0 = 1 then t.initial.getD idx.toNat 0
     else t.initial.getD (TABLE_SIZE - 1 - idx.toNat) 0,
     if b0 = 1 then t.initial.getD (TABLE_SIZE - 1 - idx.toNat) 0
     else t.initial.getD idx.toNat 0,
     z)

/-- The final `x` of the iteration loop for phase `p`. -/
def xEnd (t : Tables) (p : Int) : Int :=
  (loopEnd t (quadrantBit0 p) (index p) (startZ p)).1

/-- The final `y` of the iteration loop for phase `p`. -/
def yEnd (t : Tables) (p : Int) : Int :=
  (loopEnd t (quadrantBit0 p) (index p) (startZ p)).2.1

/-- `flip_sin_sign ? -y : y` (line 189): the sine accumulator after the sign
flip, before the final right shift by `OUTPUT_EXTRA_BITS`. -/
def preShiftSin (t : Tables) (p : Int) : Int :=
  if flipSin p = 1 then -yEnd t p else yEnd t p

/-- `flip_cos_sign ? -x : x` (line 188): the cosine accumulator after the
sign flip, before the final right shift by `OUTPUT_EXTRA_BITS`. -/
def preShiftCos (t : Tables) (p : Int) : Int :=
  if flipCos p = 1 then -xEnd t p else xEnd t p

/-- `cordic_sine_cosine` (lines 140-190): returns the pair
`(sin_value, cos_value)` that the C function stores through `*s` and `*c`. -/
def cordic_sine_cosine (t : Tables) (p : Int) : Int × Int :=
  (preShiftSin t p / 2 ^ OUTPUT_EXTRA_BITS,
   preShiftCos t p / 2 ^ OUTPUT_EXTRA_BITS)

/-- `sign(z)` as used in the specification's formal clause for the loop:
`-1` when `z < 0`, else `+1`. -/
def sgn (z : Int) : Int := if z < 0 then -1 else 1

/-- The first `n` iterations of the loop, also collecting the sequence of
intermediate states exactly as the `show` branch of the C loop prints them
(initial state, then the state after every iteration). -/
def cordicIterTrace (t : Tables) : Nat → Int × Int × Int → (Int × Int × Int) × List (Int × Int × Int)
  | 0, st => (st, [st])
  | n + 1, st =>
      let r := cordicIterTrace t n st
      let st2 := cordicStep (t.shifts.getD n 0) (t.angles.getD n 0) r.1
      (st2, r.2 ++ [st2])

/-- `cordic_sine_cosine` with its `show` parameter: the returned values, plus
the trace that the debugging branch prints (`[]` when `showFlag` is false,
matching the absence of output).  The C function's only use of `show` is to
gate `printf` calls. -/
def cordic_sine_cosine_traced (t : Tables) (p : Int) (showFlag : Bool) :
    (Int × Int) × List (Int × Int × Int) :=
  let r := cordicIterTrace t CORDIC_REPS (startX t p, startY t p, startZ p)
  (((if flipSin p = 1 then -r.1.2.1 else r.1.2.1) / 2 ^ OUTPUT_EXTRA_BITS,
    (if flipCos p = 1 then -r.1.1 else r.1.1) / 2 ^ OUTPUT_EXTRA_BITS),
   if showFlag then r.2 else [])

/-- Bounds-checked read of a table at a C `int` index: `none` exactly when
the access would be out of bounds. -/
def zget? (l : List Int) (i : Int) : Option Int :=
  if 0 ≤ i then l[i.toNat]? else none

/-- One loop iteration with the reads `shifts[i]`, `angles[i]` bounds-checked. -/
def cordicStep? (t : Tables) (i : Nat) (st : Int × Int × Int) : Option (Int × Int × Int) :=
  match t.shifts[i]?, t.angles[i]? with
  | some sh, some a => some (cordicStep sh a st)
  | _, _ => none

/-- The first `n` loop iterations with all table reads bounds-checked. -/
def cordicIter? (t : Tables) : Nat → Int × Int × Int → Option (Int × Int × Int)
  | 0, st => some st
  | n + 1, st =>
      match cordicIter? t n st with
      | some st1 => cordicStep? t n st1
      | none => none

/-- The rotation engine with every table access bounds-checked: the two
lookup-table reads at `index` and `TABLE_SIZE-1-index` (as C `int`
arithmetic, so a negative position is also out of bounds) and the
`shifts[i]`, `angles[i]` reads of all `CORDIC_REPS` iterations.  Returns
`none` if any access is out of bounds. -/
def cordic_sine_cosine? (t : Tables) (p : Int) : Option (Int × Int) :=
  match zget? t.initial (index p), zget? t.initial ((TABLE_SIZE : Int) - 1 - index p) with
  | some eAt, some eMir =>
      match cordicIter? t CORDIC_REPS
          (if quadrantBit0 p = 1 then eAt else eMir,
           if quadrantBit0 p = 1 then eMir else eAt,
           startZ p) with
      | some st => some
          ((if flipSin p = 1 then -st.2.1 else st.2.1) / 2 ^ OUTPUT_EXTRA_BITS,
           (if flipCos p = 1 then -st.1 else st.1) / 2 ^ OUTPUT_EXTRA_BITS)
      | none => none
  | _, _ => none

/-- The diagnostic at lines 129-133 of `setup()`: the block that prints the
degenerate-table note runs once when `angles[0] == angles[CORDIC_REPS-1]`,
so the number of times the signal is emitted during one table generation is
1 when that test holds and 0 otherwise. -/
def degenerateSignalCount (t : Tables) : Nat :=
  if t.angles.getD 0 0 = t.angles.getD (CORDIC_REPS - 1) 0 then 1 else 0

/-- The 24 entries of `angles[]` as produced by `setup()` (they all come out
equal). -/
def genAngles : List Int :=
  [1335089, 1335089, 1335089, 1335089, 1335089, 1335089, 1335089, 1335089, 1335089, 1335089, 1335089, 1335089, 1335089, 1335089, 1335089, 1335089, 1335089, 1335089, 1335089, 1335089, 1335089, 1335089, 1335089, 1335089]

/-- The 24 entries of `shifts[]` as produced by `setup()`: entry `i` is
`INDEX_BITS + i`. -/
def genShifts : List Nat :=
  [11, 12, 13, 14, 15, 16, 17, 18, 19, 20, 21, 22, 23, 24, 25, 26, 27, 28, 29, 30, 31, 32, 33, 34]

/-- The 2048 entries of `initial[]` as produced by `setup()` under IEEE-754
double-precision arithmetic. -/
def genInitial : List Int :=
  [13176784, 39530360, 65883914, 92237428, 118590889, 144944280, 171297585, 197650790, 224003878, 250356834, 276709644, 303062290, 329414758, 355767033, 382119098, 408470938,
 434822538, 461173883, 487524956, 513875742, 540226226, 566576392, 592926224, 619275708, 645624828, 671973568, 698321912, 724669846, 751017354, 777364419, 803711028, 830057163,
 856402810, 882747954, 909092578, 935436667, 961780206, 988123180, 1014465571, 1040807367, 1067148550, 1093489105, 1119829017, 1146168270, 1172506848, 1198844737, 1225181921, 1251518384,
 1277854111, 1304189086, 1330523294, 1356856719, 1383189346, 1409521160, 1435852144, 1462182283, 1488511562, 1514839966, 1541167478, 1567494084, 1593819768, 1620144514, 1646468307, 1672791132,
 1699112972, 1725433813, 1751753639, 1778072434, 1804390183, 1830706871, 1857022482, 1883337000, 1909650411, 1935962698, 1962273846, 1988583840, 2014892664, 2041200303, 2067506741, 2093811963,
 2120115953, 2146418695, 2172720175, 2199020377, 2225319286, 2251616885, 2277913159, 2304208094, 2330501673, 2356793881, 2383084703, 2409374123, 2435662125, 2461948694, 2488233816, 2514517473,
 2540799651, 2567080335, 2593359508, 2619637156, 2645913263, 2672187813, 2698460791, 2724732182, 2751001970, 2777270140, 2803536676, 2829801562, 2856064784, 2882326326, 2908586172, 2934844307,
 2961100715, 2987355382, 3013608291, 3039859427, 3066108776, 3092356320, 3118602045, 3144845936, 3171087977, 3197328152, 3223566446, 3249802844, 3276037330, 3302269889, 3328500505, 3354729163,
 3380955848, 3407180544, 3433403235, 3459623907, 3485842544, 3512059129, 3538273649, 3564486087, 3590696429, 3616904658, 3643110759, 3669314717, 3695516517, 3721716143, 3747913579, 3774108810,
 3800301822, 3826492597, 3852681122, 3878867380, 3905051356, 3931233035, 3957412402, 3983589440, 4009764135, 4035936471, 4062106433, 4088274006, 4114439173, 4140601920, 4166762231, 4192920090,
 4219075484, 4245228395, 4271378809, 4297526710, 4323672083, 4349814912, 4375955183, 4402092879, 4428227986, 4454360488, 4480490369, 4506617615, 4532742209, 4558864137, 4584983383, 4611099932,
 4637213768, 4663324877, 4689433242, 4715538848, 4741641680, 4767741723, 4793838961, 4819933379, 4846024962, 4872113694, 4898199560, 4924282544, 4950362631, 4976439806, 5002514054, 5028585359,
 5054653706, 5080719079, 5106781463, 5132840843, 5158897204, 5184950530, 5211000805, 5237048015, 5263092144, 5289133178, 5315171099, 5341205894, 5367237547, 5393266042, 5419291365, 5445313499,
 5471332431, 5497348143, 5523360622, 5549369852, 5575375816, 5601378501, 5627377891, 5653373971, 5679366725, 5705356137, 5731342194, 5757324878, 5783304176, 5809280072, 5835252550, 5861221596,
 5887187193, 5913149328, 5939107983, 5965063145, 5991014798, 6016962926, 6042907515, 6068848549, 6094786013, 6120719891, 6146650169, 6172576831, 6198499861, 6224419246, 6250334968, 6276247014,
 6302155367, 6328060013, 6353960937, 6379858122, 6405751555, 6431641219, 6457527099, 6483409181, 6509287449, 6535161887, 6561032481, 6586899216, 6612762075, 6638621044, 6664476108, 6690327252,
 6716174460, 6742017716, 6767857007, 6793692316, 6819523629, 6845350930, 6871174204, 6896993436, 6922808610, 6948619712, 6974426726, 7000229638, 7026028431, 7051823091, 7077613603, 7103399951,
 7129182121, 7154960096, 7180733863, 7206503405, 7232268708, 7258029756, 7283786535, 7309539028, 7335287222, 7361031100, 7386770649, 7412505851, 7438236693, 7463963160, 7489685235, 7515402905,
 7541116153, 7566824966, 7592529327, 7618229221, 7643924634, 7669615550, 7695301954, 7720983831, 7746661166, 7772333944, 7798002150, 7823665768, 7849324784, 7874979183, 7900628949, 7926274067,
 7951914522, 7977550299, 8003181383, 8028807760, 8054429413, 8080046327, 8105658489, 8131265882, 8156868492, 8182466303, 8208059301, 8233647470, 8259230796, 8284809263, 8310382856, 8335951560,
 8361515361, 8387074243, 8412628190, 8438177189, 8463721224, 8489260280, 8514794342, 8540323395, 8565847423, 8591366413, 8616880349, 8642389215, 8667892998, 8693391681, 8718885250, 8744373691,
 8769856987, 8795335124, 8820808087, 8846275860, 8871738430, 8897195781, 8922647898, 8948094766, 8973536370, 8998972695, 9024403726, 9049829448, 9075249847, 9100664907, 9126074613, 9151478950,
 9176877904, 9202271460, 9227659602, 9253042315, 9278419585, 9303791397, 9329157736, 9354518587, 9379873934, 9405223764, 9430568061, 9455906810, 9481239997, 9506567605, 9531889622, 9557206031,
 9582516818, 9607821967, 9633121465, 9658415296, 9683703445, 9708985897, 9734262637, 9759533652, 9784798925, 9810058441, 9835312187, 9860560147, 9885802306, 9911038650, 9936269163, 9961493831,
 9986712639, 10011925572, 10037132616, 10062333754, 10087528974, 10112718259, 10137901595, 10163078967, 10188250360, 10213415760, 10238575152, 10263728520, 10288875851, 10314017129, 10339152339, 10364281468,
 10389404499, 10414521418, 10439632211, 10464736863, 10489835358, 10514927682, 10540013821, 10565093759, 10590167483, 10615234976, 10640296224, 10665351213, 10690399928, 10715442355, 10740478477, 10765508281,
 10790531752, 10815548876, 10840559636, 10865564020, 10890562012, 10915553597, 10940538760, 10965517488, 10990489765, 11015455576, 11040414907, 11065367744, 11090314071, 11115253874, 11140187138, 11165113849,
 11190033991, 11214947551, 11239854513, 11264754863, 11289648587, 11314535669, 11339416094, 11364289850, 11389156919, 11414017289, 11438870945, 11463717871, 11488558053, 11513391477, 11538218128, 11563037991,
 11587851052, 11612657297, 11637456709, 11662249276, 11687034982, 11711813813, 11736585754, 11761350791, 11786108909, 11810860094, 11835604330, 11860341604, 11885071901, 11909795206, 11934511505, 11959220783,
 11983923026, 12008618219, 12033306347, 12057987397, 12082661353, 12107328202, 12131987928, 12156640517, 12181285954, 12205924226, 12230555317, 12255179213, 12279795900, 12304405363, 12329007588, 12353602560,
 12378190264, 12402770687, 12427343813, 12451909629, 12476468120, 12501019271, 12525563068, 12550099497, 12574628542, 12599150191, 12623664427, 12648171238, 12672670608, 12697162522, 12721646968, 12746123929,
 12770593393, 12795055344, 12819509767, 12843956650, 12868395976, 12892827733, 12917251905, 12941668478, 12966077438, 12990478770, 13014872460, 13039258494, 13063636857, 13088007536, 13112370515, 13136725780,
 13161073317, 13185413112, 13209745150, 13234069418, 13258385900, 13282694582, 13306995451, 13331288491, 13355573690, 13379851031, 13404120501, 13428382086, 13452635771, 13476881543, 13501119387, 13525349288,
 13549571232, 13573785206, 13597991194, 13622189183, 13646379159, 13670561107, 13694735013, 13718900862, 13743058641, 13767208335, 13791349931, 13815483413, 13839608768, 13863725982, 13887835040, 13911935928,
 13936028632, 13960113137, 13984189431, 14008257498, 14032317324, 14056368895, 14080412197, 14104447217, 14128473938, 14152492349, 14176502434, 14200504179, 14224497571, 14248482594, 14272459236, 14296427481,
 14320387316, 14344338727, 14368281700, 14392216220, 14416142273, 14440059846, 14463968924, 14487869493, 14511761540, 14535645049, 14559520008, 14583386401, 14607244216, 14631093438, 14654934052, 14678766045,
 14702589403, 14726404112, 14750210158, 14774007527, 14797796204, 14821576177, 14845347430, 14869109950, 14892863723, 14916608735, 14940344972, 14964072419, 14987791064, 15011500892, 15035201889, 15058894041,
 15082577335, 15106251755, 15129917290, 15153573923, 15177221642, 15200860433, 15224490281, 15248111174, 15271723096, 15295326034, 15318919975, 15342504903, 15366080806, 15389647670, 15413205480, 15436754223,
 15460293885, 15483824452, 15507345911, 15530858247, 15554361446, 15577855495, 15601340380, 15624816088, 15648282603, 15671739913, 15695188004, 15718626862, 15742056473, 15765476823, 15788887899, 15812289687,
 15835682172, 15859065342, 15882439183, 15905803680, 15929158820, 15952504590, 15975840975, 15999167962, 16022485537, 16045793686, 16069092397, 16092381654, 16115661444, 16138931754, 16162192570, 16185443878,
 16208685664, 16231917915, 16255140618, 16278353758, 16301557322, 16324751296, 16347935667, 16371110420, 16394275543, 16417431022, 16440576843, 16463712992, 16486839456, 16509956221, 16533063273, 16556160600,
 16579248187, 16602326021, 16625394089, 16648452376, 16671500869, 16694539555, 16717568420, 16740587450, 16763596632, 16786595953, 16809585398, 16832564955, 16855534610, 16878494349, 16901444159, 16924384026,
 16947313937, 16970233878, 16993143836, 17016043798, 17038933749, 17061813677, 17084683568, 17107543408, 17130393185, 17153232884, 17176062492, 17198881996, 17221691383, 17244490638, 17267279749, 17290058702,
 17312827483, 17335586080, 17358334479, 17381072666, 17403800629, 17426518353, 17449225826, 17471923034, 17494609963, 17517286601, 17539952934, 17562608949, 17585254632, 17607889970, 17630514950, 17653129558,
 17675733781, 17698327606, 17720911020, 17743484009, 17766046560, 17788598660, 17811140295, 17833671452, 17856192118, 17878702280, 17901201924, 17923691037, 17946169607, 17968637619, 17991095060, 18013541918,
 18035978179, 18058403830, 18080818857, 18103223248, 18125616990, 18148000069, 18170372471, 18192734185, 18215085196, 18237425491, 18259755058, 18282073884, 18304381954, 18326679256, 18348965778, 18371241505,
 18393506425, 18415760524, 18438003790, 18460236209, 18482457769, 18504668455, 18526868256, 18549057158, 18571235149, 18593402214, 18615558341, 18637703517, 18659837729, 18681960964, 18704073209, 18726174450,
 18748264676, 18770343872, 18792412027, 18814469126, 18836515157, 18858550107, 18880573963, 18902586713, 18924588342, 18946578838, 18968558189, 18990526381, 19012483401, 19034429237, 19056363875, 19078287303,
 19100199508, 19122100476, 19143990195, 19165868653, 19187735836, 19209591731, 19231436325, 19253269607, 19275091562, 19296902178, 19318701442, 19340489341, 19362265863, 19384030995, 19405784723, 19427527036,
 19449257919, 19470977362, 19492685350, 19514381871, 19536066912, 19557740461, 19579402504, 19601053029, 19622692024, 19644319474, 19665935369, 19687539695, 19709132439, 19730713589, 19752283131, 19773841054,
 19795387344, 19816921990, 19838444977, 19859956294, 19881455928, 19902943866, 19924420096, 19945884605, 19967337380, 19988778409, 20010207679, 20031625178, 20053030892, 20074424810, 20095806918, 20117177205,
 20138535657, 20159882262, 20181217008, 20202539882, 20223850870, 20245149962, 20266437144, 20287712404, 20308975729, 20330227107, 20351466525, 20372693971, 20393909432, 20415112896, 20436304351, 20457483783,
 20478651180, 20499806531, 20520949822, 20542081041, 20563200175, 20584307213, 20605402142, 20626484948, 20647555621, 20668614148, 20689660516, 20710694712, 20731716725, 20752726542, 20773724151, 20794709539,
 20815682694, 20836643604, 20857592256, 20878528638, 20899452737, 20920364543, 20941264041, 20962151220, 20983026068, 21003888571, 21024738719, 21045576499, 21066401897, 21087214903, 21108015504, 21128803688,
 21149579442, 21170342755, 21191093613, 21211832005, 21232557919, 21253271342, 21273972263, 21294660669, 21315336547, 21335999886, 21356650674, 21377288899, 21397914547, 21418527608, 21439128069, 21459715917,
 21480291142, 21500853730, 21521403670, 21541940949, 21562465556, 21582977478, 21603476703, 21623963220, 21644437015, 21664898078, 21685346396, 21705781957, 21726204750, 21746614761, 21767011979, 21787396392,
 21807767988, 21828126756, 21848472682, 21868805756, 21889125964, 21909433296, 21929727739, 21950009281, 21970277911, 21990533616, 22010776385, 22031006205, 22051223066, 22071426953, 22091617857, 22111795765,
 22131960665, 22152112546, 22172251395, 22192377200, 22212489951, 22232589634, 22252676239, 22272749753, 22292810164, 22312857461, 22332891632, 22352912665, 22372920548, 22392915271, 22412896819, 22432865183,
 22452820351, 22472762309, 22492691048, 22512606555, 22532508818, 22552397826, 22572273567, 22592136029, 22611985201, 22631821071, 22651643627, 22671452858, 22691248752, 22711031297, 22730800482, 22750556294,
 22770298724, 22790027758, 22809743385, 22829445594, 22849134373, 22868809710, 22888471594, 22908120014, 22927754957, 22947376412, 22966984369, 22986578814, 23006159737, 23025727125, 23045280969, 23064821255,
 23084347973, 23103861111, 23123360658, 23142846602, 23162318932, 23181777635, 23201222702, 23220654119, 23240071877, 23259475963, 23278866366, 23298243075, 23317606078, 23336955364, 23356290922, 23375612739,
 23394920805, 23414215109, 23433495638, 23452762383, 23472015330, 23491254470, 23510479790, 23529691280, 23548888928, 23568072722, 23587242653, 23606398707, 23625540874, 23644669143, 23663783503, 23682883941,
 23701970448, 23721043011, 23740101620, 23759146264, 23778176930, 23797193608, 23816196287, 23835184956, 23854159603, 23873120217, 23892066787, 23910999302, 23929917751, 23948822122, 23967712405, 23986588589,
 24005450661, 24024298612, 24043132430, 24061952105, 24080757624, 24099548977, 24118326152, 24137089140, 24155837929, 24174572507, 24193292864, 24211998988, 24230690870, 24249368497, 24268031858, 24286680944,
 24305315742, 24323936242, 24342542433, 24361134304, 24379711844, 24398275042, 24416823887, 24435358368, 24453878474, 24472384195, 24490875520, 24509352437, 24527814936, 24546263005, 24564696635, 24583115814,
 24601520532, 24619910777, 24638286538, 24656647806, 24674994569, 24693326816, 24711644537, 24729947720, 24748236356, 24766510432, 24784769940, 24803014867, 24821245203, 24839460937, 24857662059, 24875848558,
 24894020423, 24912177643, 24930320208, 24948448108, 24966561331, 24984659866, 25002743704, 25020812834, 25038867244, 25056906924, 25074931865, 25092942054, 25110937482, 25128918137, 25146884010, 25164835090,
 25182771366, 25200692827, 25218599464, 25236491265, 25254368220, 25272230319, 25290077550, 25307909905, 25325727371, 25343529938, 25361317597, 25379090336, 25396848146, 25414591015, 25432318933, 25450031891,
 25467729876, 25485412880, 25503080891, 25520733899, 25538371895, 25555994866, 25573602804, 25591195697, 25608773536, 25626336310, 25643884008, 25661416621, 25678934138, 25696436549, 25713923843, 25731396010,
 25748853040, 25766294923, 25783721648, 25801133205, 25818529584, 25835910775, 25853276767, 25870627550, 25887963115, 25905283450, 25922588545, 25939878391, 25957152977, 25974412294, 25991656330, 26008885076,
 26026098522, 26043296657, 26060479471, 26077646955, 26094799098, 26111935891, 26129057322, 26146163382, 26163254061, 26180329349, 26197389235, 26214433711, 26231462765, 26248476388, 26265474569, 26282457299,
 26299424568, 26316376366, 26333312682, 26350233508, 26367138832, 26384028645, 26400902936, 26417761697, 26434604917, 26451432587, 26468244695, 26485041233, 26501822191, 26518587558, 26535337325, 26552071482,
 26568790018, 26585492926, 26602180193, 26618851812, 26635507771, 26652148061, 26668772672, 26685381595, 26701974820, 26718552336, 26735114135, 26751660206, 26768190539, 26784705126, 26801203956, 26817687019,
 26834154307, 26850605808, 26867041514, 26883461415, 26899865501, 26916253762, 26932626189, 26948982773, 26965323503, 26981648370, 26997957364, 27014250477, 27030527697, 27046789016, 27063034424, 27079263912,
 27095477470, 27111675088, 27127856757, 27144022467, 27160172209, 27176305974, 27192423751, 27208525532, 27224611307, 27240681066, 27256734801, 27272772501, 27288794157, 27304799759, 27320789299, 27336762767,
 27352720154, 27368661449, 27384586644, 27400495730, 27416388696, 27432265534, 27448126235, 27463970788, 27479799185, 27495611417, 27511407473, 27527187346, 27542951024, 27558698500, 27574429764, 27590144806,
 27605843618, 27621526190, 27637192514, 27652842578, 27668476376, 27684093896, 27699695131, 27715280071, 27730848707, 27746401029, 27761937029, 27777456697, 27792960025, 27808447002, 27823917621, 27839371871,
 27854809745, 27870231232, 27885636323, 27901025011, 27916397285, 27931753136, 27947092556, 27962415535, 27977722065, 27993012136, 28008285739, 28023542866, 28038783508, 28054007655, 28069215298, 28084406429,
 28099581039, 28114739119, 28129880659, 28145005651, 28160114087, 28175205956, 28190281251, 28205339962, 28220382080, 28235407598, 28250416505, 28265408793, 28280384453, 28295343477, 28310285855, 28325211579,
 28340120640, 28355013029, 28369888738, 28384747758, 28399590079, 28414415694, 28429224593, 28444016768, 28458792210, 28473550911, 28488292861, 28503018053, 28517726476, 28532418124, 28547092987, 28561751056,
 28576392323, 28591016779, 28605624416, 28620215225, 28634789198, 28649346325, 28663886599, 28678410010, 28692916551, 28707406212, 28721878986, 28736334863, 28750773835, 28765195894, 28779601031, 28793989238,
 28808360506, 28822714827, 28837052192, 28851372594, 28865676022, 28879962470, 28894231928, 28908484389, 28922719843, 28936938284, 28951139701, 28965324087, 28979491433, 28993641732, 29007774974, 29021891152,
 29035990257, 29050072280, 29064137215, 29078185052, 29092215782, 29106229399, 29120225893, 29134205256, 29148167481, 29162112558, 29176040481, 29189951239, 29203844826, 29217721233, 29231580452, 29245422475,
 29259247293, 29273054900, 29286845285, 29300618442, 29314374362, 29328113037, 29341834459, 29355538620, 29369225512, 29382895127, 29396547456, 29410182493, 29423800228, 29437400653, 29450983762, 29464549545,
 29478097995, 29491629104, 29505142864, 29518639267, 29532118304, 29545579969, 29559024252, 29572451147, 29585860645, 29599252739, 29612627420, 29625984681, 29639324513, 29652646909, 29665951862, 29679239363,
 29692509404, 29705761978, 29718997077, 29732214693, 29745414818, 29758597445, 29771762565, 29784910172, 29798040257, 29811152812, 29824247831, 29837325304, 29850385225, 29863427586, 29876452379, 29889459596,
 29902449230, 29915421274, 29928375718, 29941312557, 29954231782, 29967133386, 29980017361, 29992883699, 30005732393, 30018563436, 30031376820, 30044172536, 30056950579, 30069710940, 30082453612, 30095178587,
 30107885857, 30120575417, 30133247256, 30145901370, 30158537749, 30171156387, 30183757275, 30196340408, 30208905777, 30221453374, 30233983194, 30246495227, 30258989467, 30271465906, 30283924538, 30296365354,
 30308788348, 30321193512, 30333580838, 30345950320, 30358301951, 30370635722, 30382951628, 30395249659, 30407529810, 30419792073, 30432036441, 30444262906, 30456471462, 30468662101, 30480834816, 30492989600,
 30505126446, 30517245347, 30529346294, 30541429283, 30553494304, 30565541352, 30577570419, 30589581498, 30601574581, 30613549663, 30625506735, 30637445792, 30649366825, 30661269827, 30673154793, 30685021714,
 30696870585, 30708701397, 30720514143, 30732308818, 30744085414, 30755843924, 30767584340, 30779306658, 30791010868, 30802696965, 30814364941, 30826014790, 30837646505, 30849260079, 30860855506, 30872432777,
 30883991887, 30895532829, 30907055596, 30918560181, 30930046577, 30941514778, 30952964777, 30964396567, 30975810142, 30987205494, 30998582617, 31009941505, 31021282150, 31032604546, 31043908687, 31055194565,
 31066462174, 31077711508, 31088942559, 31100155322, 31111349789, 31122525954, 31133683811, 31144823352, 31155944572, 31167047464, 31178132021, 31189198236, 31200246104, 31211275617, 31222286770, 31233279555,
 31244253966, 31255209998, 31266147643, 31277066894, 31287967746, 31298850193, 31309714227, 31320559842, 31331387032, 31342195791, 31352986112, 31363757989, 31374511415, 31385246384, 31395962891, 31406660928,
 31417340489, 31428001568, 31438644159, 31449268255, 31459873851, 31470460939, 31481029515, 31491579570, 31502111100, 31512624099, 31523118559, 31533594475, 31544051840, 31554490649, 31564910895, 31575312573,
 31585695675, 31596060197, 31606406131, 31616733472, 31627042214, 31637332350, 31647603875, 31657856783, 31668091067, 31678306721, 31688503740, 31698682117, 31708841847, 31718982924, 31729105341, 31739209092,
 31749294172, 31759360575, 31769408295, 31779437325, 31789447661, 31799439295, 31809412223, 31819366438, 31829301935, 31839218707, 31849116749, 31858996055, 31868856620, 31878698436, 31888521499, 31898325803,
 31908111342, 31917878111, 31927626102, 31937355312, 31947065734, 31956757362, 31966430191, 31976084214, 31985719427, 31995335824, 32004933399, 32014512145, 32024072059, 32033613134, 32043135364, 32052638744,
 32062123268, 32071588931, 32081035727, 32090463651, 32099872696, 32109262858, 32118634131, 32127986510, 32137319988, 32146634561, 32155930223, 32165206968, 32174464791, 32183703687, 32192923650, 32202124675,
 32211306756, 32220469888, 32229614066, 32238739283, 32247845536, 32256932818, 32266001124, 32275050448, 32284080787, 32293092133, 32302084482, 32311057828, 32320012167, 32328947493, 32337863801, 32346761085,
 32355639340, 32364498561, 32373338743, 32382159881, 32390961969, 32399745002, 32408508975, 32417253883, 32425979721, 32434686484, 32443374166, 32452042763, 32460692268, 32469322678, 32477933988, 32486526191,
 32495099283, 32503653259, 32512188114, 32520703844, 32529200442, 32537677903, 32546136224, 32554575399, 32562995423, 32571396291, 32579777997, 32588140538, 32596483909, 32604808103, 32613113117, 32621398946,
 32629665584, 32637913027, 32646141270, 32654350308, 32662540137, 32670710750, 32678862145, 32686994315, 32695107257, 32703200965, 32711275434, 32719330660, 32727366638, 32735383364, 32743380832, 32751359038,
 32759317977, 32767257645, 32775178037, 32783079148, 32790960973, 32798823509, 32806666749, 32814490691, 32822295328, 32830080657, 32837846673, 32845593371, 32853320747, 32861028796, 32868717514, 32876386896,
 32884036938, 32891667635, 32899278982, 32906870976, 32914443612, 32921996885, 32929530790, 32937045324, 32944540482, 32952016260, 32959472653, 32966909656, 32974327266, 32981725478, 32989104288, 32996463691,
 33003803683, 33011124260, 33018425418, 33025707151, 33032969456, 33040212329, 33047435765, 33054639760, 33061824310, 33068989411, 33076135057, 33083261246, 33090367973, 33097455234, 33104523025, 33111571340,
 33118600178, 33125609532, 33132599399, 33139569776, 33146520657, 33153452039, 33160363917, 33167256289, 33174129149, 33180982493, 33187816318, 33194630619, 33201425393, 33208200635, 33214956341, 33221692509,
 33228409132, 33235106209, 33241783733, 33248441703, 33255080113, 33261698961, 33268298241, 33274877951, 33281438085, 33287978641, 33294499615, 33301001002, 33307482799, 33313945003, 33320387608, 33326810612,
 33333214011, 33339597800, 33345961977, 33352306537, 33358631477, 33364936793, 33371222481, 33377488538, 33383734960, 33389961743, 33396168883, 33402356377, 33408524222, 33414672413, 33420800947, 33426909821,
 33432999030, 33439068572, 33445118442, 33451148637, 33457159154, 33463149989, 33469121138, 33475072599, 33481004367, 33486916438, 33492808811, 33498681480, 33504534443, 33510367696, 33516181236, 33521975059,
 33527749162, 33533503542, 33539238195, 33544953117, 33550648306, 33556323757, 33561979469, 33567615437, 33573231657, 33578828128, 33584404845, 33589961805, 33595499005, 33601016442, 33606514112, 33611992012,
 33617450139, 33622888490, 33628307061, 33633705850, 33639084853, 33644444067, 33649783489, 33655103115, 33660402943, 33665682969, 33670943191, 33676183605, 33681404208, 33686604998, 33691785970, 33696947122,
 33702088452, 33707209955, 33712311629, 33717393471, 33722455478, 33727497647, 33732519975, 33737522459, 33742505096, 33747467883, 33752410817, 33757333896, 33762237116, 33767120475, 33771983969, 33776827596,
 33781651353, 33786455238, 33791239246, 33796003376, 33800747625, 33805471990, 33810176467, 33814861055, 33819525751, 33824170552, 33828795454, 33833400456, 33837985555, 33842550748, 33847096032, 33851621404,
 33856126863, 33860612405, 33865078027, 33869523728, 33873949504, 33878355353, 33882741272, 33887107259, 33891453310, 33895779425, 33900085599, 33904371831, 33908638118, 33912884457, 33917110846, 33921317282,
 33925503764, 33929670288, 33933816852, 33937943454, 33942050091, 33946136760, 33950203460, 33954250188, 33958276942, 33962283718, 33966270516, 33970237332, 33974184164, 33978111010, 33982017868, 33985904735,
 33989771609, 33993618488, 33997445369, 34001252250, 34005039129, 34008806004, 34012552873, 34016279732, 34019986581, 34023673417, 34027340237, 34030987040, 34034613824, 34038220586, 34041807324, 34045374036,
 34048920720, 34052447374, 34055953995, 34059440583, 34062907134, 34066353647, 34069780120, 34073186550, 34076572936, 34079939275, 34083285566, 34086611807, 34089917996, 34093204130, 34096470208, 34099716228,
 34102942188, 34106148086, 34109333921, 34112499689, 34115645391, 34118771023, 34121876583, 34124962071, 34128027484, 34131072820, 34134098078, 34137103255, 34140088351, 34143053363, 34145998289, 34148923129,
 34151827879, 34154712538, 34157577106, 34160421579, 34163245956, 34166050237, 34168834418, 34171598498, 34174342477, 34177066351, 34179770120, 34182453782, 34185117335, 34187760778, 34190384109, 34192987327,
 34195570430, 34198133416, 34200676285, 34203199034, 34205701663, 34208184169, 34210646552, 34213088809, 34215510939, 34217912941, 34220294814, 34222656556, 34224998166, 34227319642, 34229620983, 34231902187,
 34234163254, 34236404181, 34238624969, 34240825614, 34243006117, 34245166475, 34247306688, 34249426754, 34251526671, 34253606440, 34255666058, 34257705524, 34259724838, 34261723997, 34263703001, 34265661849,
 34267600539, 34269519070, 34271417441, 34273295651, 34275153700, 34276991585, 34278809305, 34280606861, 34282384250, 34284141471, 34285878525, 34287595408, 34289292121, 34290968663, 34292625032, 34294261228,
 34295877249, 34297473095, 34299048764, 34300604256, 34302139570, 34303654705, 34305149661, 34306624435, 34308079027, 34309513437, 34310927664, 34312321706, 34313695563, 34315049235, 34316382720, 34317696017,
 34318989126, 34320262046, 34321514777, 34322747317, 34323959665, 34325151822, 34326323786, 34327475557, 34328607134, 34329718517, 34330809704, 34331880695, 34332931489, 34333962087, 34334972486, 34335962688,
 34336932690, 34337882493, 34338812095, 34339721497, 34340610698, 34341479697, 34342328494, 34343157088, 34343965479, 34344753667, 34345521650, 34346269428, 34346997002, 34347704370, 34348391532, 34349058488,
 34349705238, 34350331780, 34350938115, 34351524242, 34352090161, 34352635872, 34353161373, 34353666666, 34354151749, 34354616623, 34355061287, 34355485740, 34355889983, 34356274016, 34356637837, 34356981448,
 34357304847, 34357608034, 34357891010, 34358153774, 34358396326, 34358618666, 34358820793, 34359002708, 34359164411, 34359305901, 34359427178, 34359528242, 34359609094, 34359669733, 34359710159, 34359730372]

/-- The table bundle that `setup()` leaves in the globals `angles`, `shifts`
and `initial` for the repository's parameters. -/
def genTables : Tables :=
  ⟨genAngles, genShifts, genInitial⟩


set_option maxRecDepth 8000

/-! ### Helper lemmas -/

theorem fields_half_circle (p : Int) :
    quadrantBit1 ((p + FULL_CIRCLE / 2) % FULL_CIRCLE) = 1 - quadrantBit1 p ∧
    quadrantBit0 ((p + FULL_CIRCLE / 2) % FULL_CIRCLE) = quadrantBit0 p ∧
    index ((p + FULL_CIRCLE / 2) % FULL_CIRCLE) = index p ∧
    residual ((p + FULL_CIRCLE / 2) % FULL_CIRCLE) = residual p := by
  simp only [quadrantBit1, quadrantBit0, index, residual, FULL_CIRCLE, INPUT_BITS,
    INDEX_BITS, CORDIC_BITS, Z_EXTRA_BITS]
  norm_num
  omega

theorem fields_mod (p : Int) :
    quadrantBit1 (p % 2 ^ INPUT_BITS) = quadrantBit1 p ∧
    quadrantBit0 (p % 2 ^ INPUT_BITS) = quadrantBit0 p ∧
    index (p % 2 ^ INPUT_BITS) = index p ∧
    residual (p % 2 ^ INPUT_BITS) = residual p := by
  simp only [quadrantBit1, quadrantBit0, index, residual, INPUT_BITS,
    INDEX_BITS, CORDIC_BITS, Z_EXTRA_BITS]
  norm_num
  omega

theorem bit1_cases (p : Int) : quadrantBit1 p = 0 ∨ quadrantBit1 p = 1 := by
  simp only [quadrantBit1, INDEX_BITS, CORDIC_BITS]
  norm_num
  omega

theorem bit0_cases (p : Int) : quadrantBit0 p = 0 ∨ quadrantBit0 p = 1 := by
  simp only [quadrantBit0, INDEX_BITS, CORDIC_BITS]
  norm_num
  omega

/-- The result of the engine depends on the phase only through the four
extracted fields. -/
theorem engine_congr (t : Tables) (p q : Int)
    (hb1 : quadrantBit1 p = quadrantBit1 q) (hb0 : quadrantBit0 p = quadrantBit0 q)
    (hidx : index p = index q) (hres : residual p = residual q) :
    cordic_sine_cosine t p = cordic_sine_cosine t q := by
  unfold cordic_sine_cosine preShiftSin preShiftCos flipSin flipCos xEnd yEnd startZ
  rw [hb1, hb0, hidx, hres]

/-- One loop iteration written with the sign factor `sgn z`. -/
theorem step_shape (sh : Nat) (a : Int) (s : Int × Int × Int) :
    cordicStep sh a s =
      (s.1 - sgn s.2.2 * (s.2.1 / 2 ^ sh),
       s.2.1 + sgn s.2.2 * (s.1 / 2 ^ sh),
       (s.2.2 - sgn s.2.2 * a) * 2) := by
  unfold cordicStep sgn
  rcases lt_or_le s.2.2 0 with h | h
  · simp only [if_pos h, Prod.mk.injEq]
    refine ⟨by ring, by ring, by ring⟩
  · simp only [if_neg (not_lt.2 h), Prod.mk.injEq]
    refine ⟨by ring, by ring, by ring⟩

theorem iterTrace_fst (t : Tables) (n : Nat) (st : Int × Int × Int) :
    (cordicIterTrace t n st).1 = cordicIter t n st := by
  induction n with
  | zero => rfl
  | succ k ih => simp only [cordicIterTrace, cordicIter, ih]

theorem index_range (p : Int) : 0 ≤ index p ∧ index p < (TABLE_SIZE : Nat) := by
  simp only [index, TABLE_SIZE, INDEX_BITS, CORDIC_BITS]
  norm_num
  omega

theorem cordicIterOpt_eq (t : Tables) (hs : t.shifts.length = CORDIC_REPS)
    (ha : t.angles.length = CORDIC_REPS) (n : Nat) (hn : n ≤ CORDIC_REPS)
    (st : Int × Int × Int) :
    cordicIter? t n st = some (cordicIter t n st) := by
  induction n with
  | zero => rfl
  | succ k ih =>
    have e1 : t.shifts[k]? = some (t.shifts.getD k 0) := by
      have hl : k < t.shifts.length := by omega
      rw [List.getElem?_eq_getElem hl, List.getD_eq_getElem t.shifts 0 hl]
    have e2 : t.angles[k]? = some (t.angles.getD k 0) := by
      have hl : k < t.angles.length := by omega
      rw [List.getElem?_eq_getElem hl, List.getD_eq_getElem t.angles 0 hl]
    show (match cordicIter? t k st with
          | some st1 => cordicStep? t k st1
          | none => none) = _
    rw [ih (by omega)]
    show cordicStep? t k (cordicIter t k st) = _
    unfold cordicStep?
    rw [e1, e2]
    rfl

theorem genAngles_length : genTables.angles.length = CORDIC_REPS := rfl

theorem genShifts_length : genTables.shifts.length = CORDIC_REPS := rfl

theorem genInitial_length : genTables.initial.length = TABLE_SIZE := by
  rw [show TABLE_SIZE = 2048 by norm_num [TABLE_SIZE, INDEX_BITS]]
  rfl

/-! ### The claims -/

/-- C2: for a phase in `[0, full_circle)`, shifting by half a circle leaves
the loop untouched and inverts both sign flips, so the pre-shift accumulators
are exactly negated and each output differs from the exact negation of the
other call's output by at most one unit of the final arithmetic right shift. -/
theorem half_circle_negates (t : Tables) (p : Int)
    (h0 : 0 ≤ p) (h1 : p < FULL_CIRCLE) :
    preShiftSin t ((p + FULL_CIRCLE / 2) % FULL_CIRCLE) = -preShiftSin t p ∧
    preShiftCos t ((p + FULL_CIRCLE / 2) % FULL_CIRCLE) = -preShiftCos t p ∧
    |(cordic_sine_cosine t ((p + FULL_CIRCLE / 2) % FULL_CIRCLE)).1 +
      (cordic_sine_cosine t p).1| ≤ 1 ∧
    |(cordic_sine_cosine t ((p + FULL_CIRCLE / 2) % FULL_CIRCLE)).2 +
      (cordic_sine_cosine t p).2| ≤ 1 := by
  obtain ⟨hb1, hb0, hidx, hres⟩ := fields_half_circle p
  have hx : xEnd t ((p + FULL_CIRCLE / 2) % FULL_CIRCLE) = xEnd t p := by
    unfold xEnd; rw [hb0, hidx]; unfold startZ; rw [hb0, hres]
  have hy : yEnd t ((p + FULL_CIRCLE / 2) % FULL_CIRCLE) = yEnd t p := by
    unfold yEnd; rw [hb0, hidx]; unfold startZ; rw [hb0, hres]
  have hps : preShiftSin t ((p + FULL_CIRCLE / 2) % FULL_CIRCLE) = -preShiftSin t p := by
    unfold preShiftSin flipSin
    rw [hb1, hy]
    rcases bit1_cases p with h | h <;> simp [h]
  have hpc : preShiftCos t ((p + FULL_CIRCLE / 2) % FULL_CIRCLE) = -preShiftCos t p := by
    unfold preShiftCos flipCos
    rw [hb1, hb0, hx]
    rcases bit1_cases p with h | h <;> rcases bit0_cases p with h2 | h2 <;>
      norm_num [h, h2]
  refine ⟨hps, hpc, ?_, ?_⟩ <;>
    · unfold cordic_sine_cosine
      simp only [hps, hpc, OUTPUT_EXTRA_BITS]
      rw [abs_le]
      norm_num
      omega

/-- Witness for C2 at phase 3 with the generated tables. -/
theorem half_circle_negates_witness :
    0 ≤ (3 : Int) ∧ (3 : Int) < FULL_CIRCLE ∧
    (preShiftSin genTables ((3 + FULL_CIRCLE / 2) % FULL_CIRCLE) = -preShiftSin genTables 3 ∧
     preShiftCos genTables ((3 + FULL_CIRCLE / 2) % FULL_CIRCLE) = -preShiftCos genTables 3 ∧
     |(cordic_sine_cosine genTables ((3 + FULL_CIRCLE / 2) % FULL_CIRCLE)).1 +
       (cordic_sine_cosine genTables 3).1| ≤ 1 ∧
     |(cordic_sine_cosine genTables ((3 + FULL_CIRCLE / 2) % FULL_CIRCLE)).2 +
       (cordic_sine_cosine genTables 3).2| ≤ 1) :=
  ⟨by decide, by decide, half_circle_negates genTables 3 (by decide) (by decide)⟩

/-- C3 counterexample: phase 0 lies in quadrant 0, yet the returned
`sin_value` is `-1`, which is negative; the strict quadrant sign table is
violated as stated. -/
theorem quadrant_sign_counterexample :
    quadrant 0 = 0 ∧ (cordic_sine_cosine genTables 0).1 = -1 ∧
    ¬(0 ≤ (cordic_sine_cosine genTables 0).1) := by
  refine ⟨by decide, by decide, by decide⟩

/-- C3 as amended: the sign-flip logic realizes the standard quadrant sign
table whenever the loop leaves nonnegative accumulators (the rounding bias
of the lookup table lets them undershoot zero by a few units at sector
boundaries, as at phase 0). -/
theorem quadrant_signs (t : Tables) (p : Int)
    (h0 : 0 ≤ p) (h1 : p < FULL_CIRCLE)
    (hx : 0 ≤ xEnd t p) (hy : 0 ≤ yEnd t p) :
    (quadrant p = 0 → 0 ≤ (cordic_sine_cosine t p).2 ∧ 0 ≤ (cordic_sine_cosine t p).1) ∧
    (quadrant p = 1 → (cordic_sine_cosine t p).2 ≤ 0 ∧ 0 ≤ (cordic_sine_cosine t p).1) ∧
    (quadrant p = 2 → (cordic_sine_cosine t p).2 ≤ 0 ∧ (cordic_sine_cosine t p).1 ≤ 0) ∧
    (quadrant p = 3 → 0 ≤ (cordic_sine_cosine t p).2 ∧ (cordic_sine_cosine t p).1 ≤ 0) := by
  have hquad : quadrant p = 2 * quadrantBit1 p + quadrantBit0 p := by
    simp only [quadrant, quadrantBit1, quadrantBit0, INDEX_BITS, CORDIC_BITS]
    norm_num
    omega
  unfold cordic_sine_cosine preShiftSin preShiftCos flipSin flipCos
  rcases bit1_cases p with e1 | e1 <;> rcases bit0_cases p with e0 | e0 <;>
    simp only [hquad, e1, e0, OUTPUT_EXTRA_BITS] <;> norm_num <;> omega

/-- Witness for the amended C3 at phase `2^29` (mid-quadrant 0). -/
theorem quadrant_signs_witness :
    0 ≤ (2 ^ 29 : Int) ∧ (2 ^ 29 : Int) < FULL_CIRCLE ∧
    0 ≤ xEnd genTables (2 ^ 29) ∧ 0 ≤ yEnd genTables (2 ^ 29) ∧
    ((quadrant (2 ^ 29) = 0 → 0 ≤ (cordic_sine_cosine genTables (2 ^ 29)).2 ∧ 0 ≤ (cordic_sine_cosine genTables (2 ^ 29)).1) ∧
     (quadrant (2 ^ 29) = 1 → (cordic_sine_cosine genTables (2 ^ 29)).2 ≤ 0 ∧ 0 ≤ (cordic_sine_cosine genTables (2 ^ 29)).1) ∧
     (quadrant (2 ^ 29) = 2 → (cordic_sine_cosine genTables (2 ^ 29)).2 ≤ 0 ∧ (cordic_sine_cosine genTables (2 ^ 29)).1 ≤ 0) ∧
     (quadrant (2 ^ 29) = 3 → 0 ≤ (cordic_sine_cosine genTables (2 ^ 29)).2 ∧ (cordic_sine_cosine genTables (2 ^ 29)).1 ≤ 0)) :=
  ⟨by decide, by decide, by decide, by decide,
   quadrant_signs genTables (2 ^ 29) (by decide) (by decide) (by decide) (by decide)⟩

/-- C4: with the generated tables, phase 0 returns cosine within `MAX_ERROR`
of `OUTPUT_SCALE` and sine within `MAX_ERROR` of 0, and phase
`FULL_CIRCLE/4` returns cosine within `MAX_ERROR` of 0 and sine within
`MAX_ERROR` of `OUTPUT_SCALE`. -/
theorem concrete_scenario :
    |(cordic_sine_cosine genTables 0).2 - OUTPUT_SCALE| < MAX_ERROR ∧
    |(cordic_sine_cosine genTables 0).1| < MAX_ERROR ∧
    |(cordic_sine_cosine genTables (FULL_CIRCLE / 4)).2| < MAX_ERROR ∧
    |(cordic_sine_cosine genTables (FULL_CIRCLE / 4)).1 - OUTPUT_SCALE| < MAX_ERROR := by
  refine ⟨by decide, by decide, by decide, by decide⟩

/-- C5: the engine is exactly the claimed pipeline: field decomposition,
residual folding and mirrored table selection under `quadrant_bit0`,
recentering by `TARGET`, the `CORDIC_REPS` iterations, then sign flips and
the guard-bit shift. -/
theorem decompose_fold_select (t : Tables) (p : Int) :
    cordic_sine_cosine t p =
      (let b0 := (p / 2 ^ (CORDIC_BITS + INDEX_BITS)) % 2
       let idx := (p / 2 ^ CORDIC_BITS) % 2 ^ INDEX_BITS
       let res := (p % 2 ^ CORDIC_BITS) * 2 ^ Z_EXTRA_BITS
       let z0 := (if b0 = 1 then 2 ^ (CORDIC_BITS + Z_EXTRA_BITS) - res else res) - TARGET
       let x0 := if b0 = 1 then t.initial.getD idx.toNat 0
                 else t.initial.getD (TABLE_SIZE - 1 - idx.toNat) 0
       let y0 := if b0 = 1 then t.initial.getD (TABLE_SIZE - 1 - idx.toNat) 0
                 else t.initial.getD idx.toNat 0
       let st := cordicIter t CORDIC_REPS (x0, y0, z0)
       ((if flipSin p = 1 then -st.2.1 else st.2.1) / 2 ^ OUTPUT_EXTRA_BITS,
        (if flipCos p = 1 then -st.1 else st.1) / 2 ^ OUTPUT_EXTRA_BITS)) := rfl

/-- C6: each of the `CORDIC_REPS` iterations shifts both components by
`shifts[i]`, applies the cross updates with the sign of `z`, steers `z`
toward zero by `angles[i]`, and doubles it; when `z < 0` the `y` update is
`y + -tx`. -/
theorem iteration_step (t : Tables) (st : Int × Int × Int) (i : Nat) (h : i < CORDIC_REPS) :
    cordicIter t (i + 1) st =
      ((cordicIter t i st).1 - sgn (cordicIter t i st).2.2 * ((cordicIter t i st).2.1 / 2 ^ t.shifts.getD i 0),
       (cordicIter t i st).2.1 + sgn (cordicIter t i st).2.2 * ((cordicIter t i st).1 / 2 ^ t.shifts.getD i 0),
       ((cordicIter t i st).2.2 - sgn (cordicIter t i st).2.2 * t.angles.getD i 0) * 2) ∧
    (0 ≤ (cordicIter t i st).2.2 →
      (cordicIter t (i + 1) st).2.2 = ((cordicIter t i st).2.2 - t.angles.getD i 0) * 2) ∧
    ((cordicIter t i st).2.2 < 0 →
      (cordicIter t (i + 1) st).2.2 = ((cordicIter t i st).2.2 + t.angles.getD i 0) * 2 ∧
      (cordicIter t (i + 1) st).2.1 =
        (cordicIter t i st).2.1 + -((cordicIter t i st).1 / 2 ^ t.shifts.getD i 0)) := by
  have e : cordicIter t (i + 1) st
      = cordicStep (t.shifts.getD i 0) (t.angles.getD i 0) (cordicIter t i st) := rfl
  rw [e, step_shape]
  refine ⟨rfl, ?_, ?_⟩
  · intro hz
    show ((cordicIter t i st).2.2 - sgn (cordicIter t i st).2.2 * t.angles.getD i 0) * 2 = _
    unfold sgn
    rw [if_neg (not_lt.2 hz)]
    ring
  · intro hz
    constructor
    · show ((cordicIter t i st).2.2 - sgn (cordicIter t i st).2.2 * t.angles.getD i 0) * 2 = _
      unfold sgn
      rw [if_pos hz]
      ring
    · show (cordicIter t i st).2.1 + sgn (cordicIter t i st).2.2 * ((cordicIter t i st).1 / 2 ^ t.shifts.getD i 0) = _
      unfold sgn
      rw [if_pos hz]
      ring

/-- Witness for C6: iteration `i = 0` on a concrete state. -/
theorem iteration_step_witness :
    (0 : Nat) < CORDIC_REPS ∧
    (cordicIter genTables (0 + 1) (100, 7, -5) =
      ((cordicIter genTables 0 (100, 7, -5)).1 - sgn (cordicIter genTables 0 (100, 7, -5)).2.2 * ((cordicIter genTables 0 (100, 7, -5)).2.1 / 2 ^ genTables.shifts.getD 0 0),
       (cordicIter genTables 0 (100, 7, -5)).2.1 + sgn (cordicIter genTables 0 (100, 7, -5)).2.2 * ((cordicIter genTables 0 (100, 7, -5)).1 / 2 ^ genTables.shifts.getD 0 0),
       ((cordicIter genTables 0 (100, 7, -5)).2.2 - sgn (cordicIter genTables 0 (100, 7, -5)).2.2 * genTables.angles.getD 0 0) * 2) ∧
    (0 ≤ (cordicIter genTables 0 (100, 7, -5)).2.2 →
      (cordicIter genTables (0 + 1) (100, 7, -5)).2.2 = ((cordicIter genTables 0 (100, 7, -5)).2.2 - genTables.angles.getD 0 0) * 2) ∧
    ((cordicIter genTables 0 (100, 7, -5)).2.2 < 0 →
      (cordicIter genTables (0 + 1) (100, 7, -5)).2.2 = ((cordicIter genTables 0 (100, 7, -5)).2.2 + genTables.angles.getD 0 0) * 2 ∧
      (cordicIter genTables (0 + 1) (100, 7, -5)).2.1 =
        (cordicIter genTables 0 (100, 7, -5)).2.1 + -((cordicIter genTables 0 (100, 7, -5)).1 / 2 ^ genTables.shifts.getD 0 0))) :=
  ⟨by decide, iteration_step genTables (100, 7, -5) 0 (by decide)⟩

/-- C7: for the generated rotation-angle table all `CORDIC_REPS` entries are
equal, the diagnostic fires exactly once, and firing once is equivalent to
all entries being equal. -/
theorem degenerate_signal_fires :
    degenerateSignalCount genTables = 1 ∧
    (genTables.angles.all fun a => a = genTables.angles.getD 0 0) = true ∧
    ((degenerateSignalCount genTables = 1) ↔
      (genTables.angles.all fun a => a = genTables.angles.getD 0 0) = true) := by
  refine ⟨by decide, by decide, by decide⟩

/-- C8: the engine reads only the low `INPUT_BITS` bits of the phase, so any
nonnegative phase gives the same result as its value modulo `2^INPUT_BITS`. -/
theorem result_depends_on_phase_mod (t : Tables) (p : Int) (h : 0 ≤ p) :
    cordic_sine_cosine t p = cordic_sine_cosine t (p % 2 ^ INPUT_BITS) := by
  obtain ⟨h1, h2, h3, h4⟩ := fields_mod p
  exact (engine_congr t (p % 2 ^ INPUT_BITS) p h1 h2 h3 h4).symm

/-- Witness for C8 at the out-of-range phase `2^32 + 3`. -/
theorem result_depends_on_phase_mod_witness :
    0 ≤ (4294967299 : Int) ∧
    cordic_sine_cosine genTables 4294967299 =
      cordic_sine_cosine genTables (4294967299 % 2 ^ INPUT_BITS) :=
  ⟨by decide, result_depends_on_phase_mod genTables 4294967299 (by decide)⟩

/-- C9: the engine is a pure function of the phase and tables and the trace
flag does not influence the returned values. -/
theorem trace_flag_inert (t : Tables) (p : Int) (b c d : Bool) :
    (cordic_sine_cosine_traced t p c).1 = (cordic_sine_cosine_traced t p d).1 ∧
    (cordic_sine_cosine_traced t p b).1 = cordic_sine_cosine t p := by
  constructor
  · rfl
  · show (((if flipSin p = 1 then -(cordicIterTrace t CORDIC_REPS (startX t p, startY t p, startZ p)).1.2.1
        else (cordicIterTrace t CORDIC_REPS (startX t p, startY t p, startZ p)).1.2.1) / 2 ^ OUTPUT_EXTRA_BITS,
       (if flipCos p = 1 then -(cordicIterTrace t CORDIC_REPS (startX t p, startY t p, startZ p)).1.1
        else (cordicIterTrace t CORDIC_REPS (startX t p, startY t p, startZ p)).1.1) / 2 ^ OUTPUT_EXTRA_BITS) : Int × Int)
      = cordic_sine_cosine t p
    rw [iterTrace_fst]
    rfl

/-- C10: with well-formed tables every access of the engine is in bounds:
the extracted index lies in `[0, TABLE_SIZE)` and the fully bounds-checked
engine returns `some` of the unchecked result. -/
theorem table_accesses_in_bounds (t : Tables) (p : Int)
    (ha : t.angles.length = CORDIC_REPS) (hs : t.shifts.length = CORDIC_REPS)
    (hi : t.initial.length = TABLE_SIZE) (h0 : 0 ≤ p) (h1 : p < FULL_CIRCLE) :
    0 ≤ index p ∧ index p < (TABLE_SIZE : Nat) ∧
    cordic_sine_cosine? t p = some (cordic_sine_cosine t p) := by
  obtain ⟨hidx0, hidx1⟩ := index_range p
  refine ⟨hidx0, hidx1, ?_⟩
  have hts : (TABLE_SIZE : Nat) = 2048 := by norm_num [TABLE_SIZE, INDEX_BITS]
  have e1 : zget? t.initial (index p) = some (t.initial.getD (index p).toNat 0) := by
    unfold zget?
    rw [if_pos hidx0]
    have hl : (index p).toNat < t.initial.length := by rw [hi]; omega
    rw [List.getElem?_eq_getElem hl, List.getD_eq_getElem t.initial 0 hl]
  have e2 : zget? t.initial ((TABLE_SIZE : Int) - 1 - index p)
      = some (t.initial.getD (TABLE_SIZE - 1 - (index p).toNat) 0) := by
    unfold zget?
    have hmp : (0 : Int) ≤ (TABLE_SIZE : Int) - 1 - index p := by
      omega
    rw [if_pos hmp]
    have hl : ((TABLE_SIZE : Int) - 1 - index p).toNat < t.initial.length := by
      rw [hi]
      omega
    have hnn : ((TABLE_SIZE : Int) - 1 - index p).toNat = TABLE_SIZE - 1 - (index p).toNat := by
      omega
    rw [List.getElem?_eq_getElem hl, ← hnn, List.getD_eq_getElem t.initial 0 hl]
  unfold cordic_sine_cosine?
  rw [e1, e2]
  show (match cordicIter? t CORDIC_REPS
      (if quadrantBit0 p = 1 then t.initial.getD (index p).toNat 0 else t.initial.getD (TABLE_SIZE - 1 - (index p).toNat) 0,
       if quadrantBit0 p = 1 then t.initial.getD (TABLE_SIZE - 1 - (index p).toNat) 0 else t.initial.getD (index p).toNat 0,
       startZ p) with
    | some st => some
        ((if flipSin p = 1 then -st.2.1 else st.2.1) / 2 ^ OUTPUT_EXTRA_BITS,
         (if flipCos p = 1 then -st.1 else st.1) / 2 ^ OUTPUT_EXTRA_BITS)
    | none => none) = _
  rw [cordicIterOpt_eq t hs ha CORDIC_REPS (le_refl _)]
  rfl

/-- Witness for C10 with the generated tables at phase 5. -/
theorem table_accesses_in_bounds_witness :
    genTables.angles.length = CORDIC_REPS ∧ genTables.shifts.length = CORDIC_REPS ∧
    genTables.initial.length = TABLE_SIZE ∧ 0 ≤ (5 : Int) ∧ (5 : Int) < FULL_CIRCLE ∧
    (0 ≤ index 5 ∧ index 5 < (TABLE_SIZE : Nat) ∧
     cordic_sine_cosine? genTables 5 = some (cordic_sine_cosine genTables 5)) :=
  ⟨genAngles_length, genShifts_length, genInitial_length, by decide, by decide,
   table_accesses_in_bounds genTables 5 genAngles_length genShifts_length
     genInitial_length (by decide) (by decide)⟩

end EnhancedCordic
